import Mathlib

/-!
A shallow embedding of the Valuation & Recurring-Update Engine of the
meme-tycoon repository (`src/server/memeEngine.ts`), together with proofs of
the specification's claims about it.

Modelling conventions:
* JavaScript numbers are modelled as rationals (`ℚ`); all inputs considered
  are finite, so rationals are adequate.
* Timestamps (ISO strings produced by `new Date().toISOString()` and parsed
  back with `new Date(...).getTime()`) are modelled as rationals counting
  milliseconds since the epoch.
* The Redis key/value store is an explicit `Store` record.  Keys
  `memes:{id}` become the field `memes : String → Option MemeData` keyed by
  the meme id, `meme_index` becomes `memeIndex`, `category:{name}` becomes
  `categoryIndex`, and `portfolio:{userId}` becomes `portfolios`.
* `scheduler.runAfter(delay, name, payload)` calls are collected in a list
  of `Job` values returned next to the new store.
* External effects that can fail at run time (the Reddit post fetch, a Redis
  read or write throwing, the market-history sink) are driven by a `TickEnv`
  record of oracles, so theorems quantify over every combination of
  successes and failures.
* JavaScript's `x || d` on numbers substitutes `d` exactly when `x` is falsy
  (`0` or `NaN`); on finite numbers this is `jsOr` below.
-/

/-- One `(timestamp, price)` sample of `priceHistory`. -/
structure PricePoint where
  timestamp : ℚ
  price : ℚ
deriving Repr, DecidableEq

/-- The `MemeData` record (fields as used by `memeEngine.ts` and described by
the spec's data model; `postId` is the optional field tested by
`if (meme.postId)`). -/
structure MemeData where
  id : String
  creatorId : String
  creatorName : String
  createdAt : ℚ
  templateId : String
  templateUrl : String
  title : String
  topText : String
  bottomText : String
  categories : List String
  initialSharePrice : ℚ
  currentSharePrice : ℚ
  totalShares : ℚ
  availableShares : ℚ
  tradeVolume : ℚ
  priceHistory : List PricePoint
  engagementScore : ℚ
  lastUpdated : ℚ
  postId : Option String
deriving Repr, DecidableEq

/-- The ephemeral `MemeValuation` returned by `calculateMemeValue`. -/
structure MemeValuation where
  memeId : String
  previousPrice : ℚ
  currentPrice : ℚ
  priceChangePercent : ℚ
  marketCap : ℚ
  engagementScore : ℚ
  timestamp : ℚ
deriving Repr, DecidableEq

/-- One portfolio entry `{shares, averageBuyPrice}`. -/
structure PortfolioEntry where
  shares : ℚ
  averageBuyPrice : ℚ
deriving Repr, DecidableEq

/-- A scheduled job: `scheduler.runAfter(delaySeconds, jobName, {memeId})`. -/
structure Job where
  delaySeconds : ℕ
  jobName : String
  memeId : String
deriving Repr, DecidableEq

/-- The Redis key space used by the engine. -/
structure Store where
  memes : String → Option MemeData
  memeIndex : List String
  categoryIndex : String → List String
  portfolios : String → String → Option PortfolioEntry

/-- `redis.set('memes:' + id, ...)`. -/
def Store.setMeme (s : Store) (id : String) (m : MemeData) : Store :=
  { s with memes := fun k => if k = id then some m else s.memes k }

/-- JavaScript `x || d` on a finite number: `d` exactly when `x = 0`. -/
def jsOr (x d : ℚ) : ℚ := if x = 0 then d else x

/-- The previous engagement score actually used as divisor by
`calculatePriceChange` (line 173: `meme.engagementScore || 10`). -/
def prevScoreUsed (meme : MemeData) : ℚ := jsOr meme.engagementScore 10

/-- `calculatePriceChange(meme, newEngagementScore)` (lines 171-190); `now`
stands for `Date.now()`. -/
def calculatePriceChange (meme : MemeData) (newEngagementScore : ℚ) (now : ℚ) : ℚ :=
  let prevEngagementScore := prevScoreUsed meme
  let scoreChangePercent := (newEngagementScore - prevEngagementScore) / prevEngagementScore
  let ageInDays := (now - meme.createdAt) / (1000 * 60 * 60 * 24)
  let volatilityFactor := max (1/10) (1 - ageInDays * (1/10))
  let volumeFactor := min 2 (1 + meme.tradeVolume / 1000)
  let rawPriceChange := scoreChangePercent * volatilityFactor * volumeFactor
  max (-(3/10)) (min (3/10) rawPriceChange)

/-- Failure oracles for one engine invocation: whether the Redis read inside
`calculateMemeValue` throws, what `reddit.getPostById` returns
(`some (score, commentCount)` on success, `none` when the fetch throws),
whether the Redis read inside `updateMemeValuation` throws, whether the
`redis.set` commit throws, and whether `updateMarketHistory` throws. -/
structure TickEnv where
  calcLoadFails : Bool
  fetchResult : Option (ℚ × ℚ)
  loadFails : Bool
  commitFails : Bool
  sinkFails : Bool
deriving Repr, DecidableEq

/-- `calculateMemeValue` (lines 104-168).  It only reads the store, so the
store is threaded through unchanged next to the `Except` result (a thrown
error is rethrown to the caller by the `catch` block there). -/
def calculateMemeValue (memeId : String) (env : TickEnv) (now : ℚ) (store : Store) :
    Except String MemeValuation × Store :=
  if env.calcLoadFails then (.error "store read failed", store)
  else
    match store.memes memeId with
    | none => (.error ("Meme not found: " ++ memeId), store)
    | some meme =>
      let baseScore := jsOr meme.engagementScore 10
      let engagementScore :=
        match meme.postId with
        | none => baseScore
        | some _ =>
          match env.fetchResult with
          | none => baseScore
          | some (postKarma, commentCount) =>
            max 10 (postKarma * (1/2) + commentCount * 2 + meme.tradeVolume * 3)
      let priceChangePercent := calculatePriceChange meme engagementScore now
      let newPrice := max (1/10) (meme.currentSharePrice * (1 + priceChangePercent))
      let marketCap := meme.totalShares * newPrice
      (.ok { memeId := memeId
             previousPrice := meme.currentSharePrice
             currentPrice := newPrice
             priceChangePercent := priceChangePercent
             marketCap := marketCap
             engagementScore := engagementScore
             timestamp := now },
       store)

/-- The history commit of `updateMemeValuation` (lines 214-223): push the new
sample, then if the length exceeds 24 keep `slice(length - 24)`, i.e. the
last 24 entries. -/
def pushAndTrim (h : List PricePoint) (s : PricePoint) : List PricePoint :=
  let h2 := h ++ [s]
  if 24 < h2.length then h2.drop (h2.length - 24) else h2

/-- The fixed re-arm job `scheduler.runAfter(3600, 'updateMemeValuation',
{memeId})` used on every path of the loop. -/
def rearmJob (memeId : String) : Job :=
  { delaySeconds := 3600, jobName := "updateMemeValuation", memeId := memeId }

/-- `updateMemeValuation` (lines 193-239).  Every throwing step is caught by
the surrounding `try`/`catch`, which reschedules; partial writes made before
a throw persist.  The branches below follow the source order: valuation,
load, commit, market-history sink, reschedule. -/
def updateMemeValuation (memeId : String) (env : TickEnv) (now : ℚ) (store : Store) :
    Store × List Job :=
  match calculateMemeValue memeId env now store with
  | (.error _, s) => (s, [rearmJob memeId])
  | (.ok valuation, s) =>
    if env.loadFails then (s, [rearmJob memeId])
    else
      match s.memes memeId with
      | none => (s, [rearmJob memeId])
      | some meme =>
        let meme2 : MemeData :=
          { meme with
            currentSharePrice := valuation.currentPrice
            engagementScore := valuation.engagementScore
            lastUpdated := valuation.timestamp
            priceHistory := pushAndTrim meme.priceHistory
              { timestamp := valuation.timestamp, price := valuation.currentPrice } }
        if env.commitFails then (s, [rearmJob memeId])
        else
          let s2 := s.setMeme memeId meme2
          if env.sinkFails then (s2, [rearmJob memeId])
          else (s2, [rearmJob memeId])

/-- The `reddit.getCurrentUser()` result used by `createMeme`. -/
structure UserInfo where
  id : String
  username : String

/-- The request payload of `createMeme` (lines 7-22); `topText` and
`bottomText` are optional. -/
structure CreateInput where
  templateId : String
  templateUrl : String
  title : String
  topText : Option String
  bottomText : Option String
  categories : List String
  initialSharePrice : ℚ

/-- `createMeme` (lines 6-101); `now` stands for `Date.now()` /
`new Date().toISOString()` and `randSuffix` for
`Math.floor(Math.random() * 1000)`.  The source performs no validation of
`initialSharePrice`: every input produces a stored and returned asset.
Store writes follow the source order: asset, global index, category
indexes, asset again with the founder grant deducted, portfolio; finally the
first valuation job is armed. -/
def createMeme (input : CreateInput) (user : UserInfo) (now : ℚ) (randSuffix : ℕ)
    (store : Store) : MemeData × Store × List Job :=
  let memeId := "meme_" ++ toString now ++ "_" ++ toString randSuffix
  let newMeme : MemeData :=
    { id := memeId
      creatorId := user.id
      creatorName := user.username
      createdAt := now
      templateId := input.templateId
      templateUrl := input.templateUrl
      title := input.title
      topText := input.topText.getD ""
      bottomText := input.bottomText.getD ""
      categories := input.categories
      initialSharePrice := input.initialSharePrice
      currentSharePrice := input.initialSharePrice
      totalShares := 1000
      availableShares := 1000
      tradeVolume := 0
      priceHistory := [{ timestamp := now, price := input.initialSharePrice }]
      engagementScore := 10
      lastUpdated := now
      postId := none }
  let s1 := store.setMeme memeId newMeme
  let s2 := { s1 with memeIndex := s1.memeIndex ++ [memeId] }
  let s3 := input.categories.foldl
    (fun s category =>
      { s with categoryIndex := fun c =>
          if c = category then s.categoryIndex c ++ [memeId] else s.categoryIndex c })
    s2
  let newMeme2 := { newMeme with availableShares := newMeme.availableShares - 100 }
  let s4 := s3.setMeme memeId newMeme2
  let s5 := { s4 with portfolios := fun u =>
    if u = user.id then
      fun k => if k = memeId then some { shares := 100, averageBuyPrice := 0 }
               else s4.portfolios u k
    else s4.portfolios u }
  (newMeme2, s5, [{ delaySeconds := 3600, jobName := "updateMemeValuation", memeId := memeId }])

/-- The ranking key of `getTrendingMemes` (lines 272-277): percent change
between the last two `priceHistory` samples, `0` with fewer than two. -/
def getChangePercent (meme : MemeData) : ℚ :=
  if meme.priceHistory.length < 2 then 0
  else
    match meme.priceHistory.reverse with
    | current :: previous :: _ => (current.price - previous.price) / previous.price
    | _ => 0

/-- JavaScript `l.slice(0, e)`: a negative end index counts back from the end
of the array (`max (length + e) 0`). -/
def jsSliceTo {α : Type} (l : List α) (e : ℤ) : List α :=
  let bound : ℤ := if e < 0 then max ((l.length : ℤ) + e) 0 else min e (l.length : ℤ)
  l.take bound.toNat

/-- A chain of recompute invocations for one asset: each element of `ticks`
is the failure environment and wall-clock time of one `updateMemeValuation`
run, applied in order to the store. -/
def applyTicks (memeId : String) (ticks : List (TickEnv × ℚ)) (store : Store) : Store :=
  ticks.foldl (fun s t => (updateMemeValuation memeId t.1 t.2 s).1) store

/-- The candidate id resolution of `getTrendingMemes` (lines 247-258):
the category index when a category filter is given, the global index
otherwise.  JavaScript's `if (category)` is false for `null` and for the
empty string. -/
def memeIdsToFetch (category : Option String) (store : Store) : List String :=
  match category with
  | some c => if c = "" then store.memeIndex else store.categoryIndex c
  | none => store.memeIndex

/-- The load phase of `getTrendingMemes` (lines 260-267): each id is looked
up and ids whose record is absent are silently skipped. -/
def loadedMemes (category : Option String) (store : Store) : List MemeData :=
  (memeIdsToFetch category store).filterMap store.memes

/-- The sort phase of `getTrendingMemes` (lines 269-280): JavaScript's stable
`Array.prototype.sort` with the comparator
`getChangePercent(b) - getChangePercent(a)`, i.e. a stable sort into
descending change order, modelled by a stable insertion sort. -/
def sortedTrending (category : Option String) (store : Store) : List MemeData :=
  List.insertionSort (fun a b => getChangePercent b ≤ getChangePercent a)
    (loadedMemes category store)

/-- `getTrendingMemes` (lines 242-288): resolve ids, load, sort, then
`sortedMemes.slice(0, limit)`.  `limit` is an integer (`10` by default at the
call boundary). -/
def getTrendingMemes (limit : ℤ) (category : Option String) (store : Store) :
    List MemeData :=
  jsSliceTo (sortedTrending category store) limit

/-- A store with no keys set. -/
def emptyStore : Store :=
  { memes := fun _ => none
    memeIndex := []
    categoryIndex := fun _ => []
    portfolios := fun _ _ => none }

/-- A concrete asset used to instantiate the theorems below. -/
def baseMeme : MemeData :=
  { id := "meme_0_0"
    creatorId := "u1"
    creatorName := "alice"
    createdAt := 0
    templateId := "tpl"
    templateUrl := "url"
    title := "title"
    topText := ""
    bottomText := ""
    categories := []
    initialSharePrice := 10
    currentSharePrice := 10
    totalShares := 1000
    availableShares := 900
    tradeVolume := 0
    priceHistory := [{ timestamp := 0, price := 10 }]
    engagementScore := 10
    lastUpdated := 0
    postId := none }

/-- Concrete asset `a`: a single history sample (ranks as 0% change). -/
def memeA : MemeData := { baseMeme with id := "a" }

/-- Concrete asset `b`: two history samples rising from 10 to 20 (+100%). -/
def memeB : MemeData :=
  { baseMeme with
    id := "b"
    priceHistory := [{ timestamp := 0, price := 10 }, { timestamp := 1, price := 20 }] }

/-- A concrete store holding `memeA` and `memeB`, both in the global index. -/
def store2 : Store :=
  { memes := fun k => if k = "a" then some memeA else if k = "b" then some memeB else none
    memeIndex := ["a", "b"]
    categoryIndex := fun _ => []
    portfolios := fun _ _ => none }

/-- An invocation environment in which every external effect succeeds and no
post is consulted. -/
def envOk : TickEnv :=
  { calcLoadFails := false, fetchResult := none, loadFails := false,
    commitFails := false, sinkFails := false }

/-- An invocation environment in which the first store read throws. -/
def envCalcFail : TickEnv := { envOk with calcLoadFails := true }

/-- A concrete creation request whose `initialSharePrice` is `0`. -/
def zeroPriceInput : CreateInput :=
  { templateId := "tpl", templateUrl := "url", title := "free meme",
    topText := none, bottomText := none, categories := ["reaction"],
    initialSharePrice := 0 }

/-! ### Helper lemmas -/

/-- `calculateMemeValue` threads the store through unchanged on every path
(it performs Redis reads only). -/
lemma calcValue_store_eq (memeId : String) (env : TickEnv) (now : ℚ) (store : Store) :
    (calculateMemeValue memeId env now store).2 = store := by
  cases h1 : env.calcLoadFails <;> cases h2 : store.memes memeId <;>
    simp [calculateMemeValue, h1, h2]

/-- The clamp on line 189 keeps the raw delta inside `[-0.3, 0.3]`. -/
lemma calculatePriceChange_bounds (meme : MemeData) (ns now : ℚ) :
    -(3/10 : ℚ) ≤ calculatePriceChange meme ns now ∧
      calculatePriceChange meme ns now ≤ 3/10 := by
  unfold calculatePriceChange
  exact ⟨le_max_left _ _, max_le (by norm_num) (min_le_left _ _)⟩

/-- The history commit step never leaves more than 24 samples. -/
lemma pushAndTrim_length_le (h : List PricePoint) (s : PricePoint) :
    (pushAndTrim h s).length ≤ 24 := by
  have hdef : pushAndTrim h s =
      if 24 < (h ++ [s]).length then List.drop ((h ++ [s]).length - 24) (h ++ [s])
      else h ++ [s] := rfl
  rw [hdef]
  split <;> rename_i hsplit <;>
    simp only [List.length_drop, List.length_append, List.length_cons,
      List.length_nil] at hsplit ⊢ <;> omega

/-! ### Theorems for the claims -/

/-- C10: `calculateMemeValue` performs no store writes: for every asset id
and every environment it leaves the whole store — assets, indexes and
portfolios — unchanged, returning only the ephemeral valuation. -/
theorem calculateMemeValue_readonly (memeId : String) (env : TickEnv) (now : ℚ)
    (store : Store) :
    (calculateMemeValue memeId env now store).2 = store :=
  calcValue_store_eq memeId env now store

/-- C4: every invocation of `updateMemeValuation` — committed, asset
missing, or failed at any load/commit/sink step — propagates no error (its
result type has no error outcome, matching the catch-all `try`/`catch`) and
schedules exactly one new `updateMemeValuation` job with the fixed
3600-second delay and the same asset id. -/
theorem updateMemeValuation_always_rearms (memeId : String) (env : TickEnv)
    (now : ℚ) (store : Store) :
    (updateMemeValuation memeId env now store).2 = [rearmJob memeId] ∧
    rearmJob memeId =
      { delaySeconds := 3600, jobName := "updateMemeValuation", memeId := memeId } := by
  refine ⟨?_, rfl⟩
  unfold updateMemeValuation
  split
  · rfl
  · split
    · rfl
    · split
      · rfl
      · split
        · rfl
        · split <;> rfl

/-- C1: for every stored asset with engagement score (the previous score) at
least 10, any environment (hence any new score), non-negative age and any
inputs, a valuation returned by the algorithm has
`-0.3 ≤ priceChangePercent ≤ 0.3`, and its new price — computed as
`max(0.1, currentPrice * (1 + priceChangePercent))` — is at least `0.1`. -/
theorem valuation_bounded (memeId : String) (env : TickEnv) (now : ℚ)
    (store : Store) (meme : MemeData) (v : MemeValuation)
    (hm : store.memes memeId = some meme)
    (hprev : 10 ≤ meme.engagementScore)
    (hage : meme.createdAt ≤ now)
    (hvol : 0 ≤ meme.tradeVolume)
    (hv : (calculateMemeValue memeId env now store).1 = .ok v) :
    -(3/10 : ℚ) ≤ v.priceChangePercent ∧ v.priceChangePercent ≤ 3/10 ∧
    (1/10 : ℚ) ≤ v.currentPrice := by
  cases h1 : env.calcLoadFails
  · simp only [calculateMemeValue, h1, hm, Bool.false_eq_true, if_false] at hv
    have hv2 : _ = v := Except.ok.inj hv
    subst hv2
    exact ⟨(calculatePriceChange_bounds meme _ now).1,
           (calculatePriceChange_bounds meme _ now).2,
           le_max_left _ _⟩
  · simp [calculateMemeValue, h1] at hv

/-- Witness for C1 at a concrete asset and a successful environment. -/
theorem valuation_bounded_witness :
    ∃ v : MemeValuation,
      (calculateMemeValue "a" envOk 5 store2).1 = .ok v ∧
      (-(3/10 : ℚ) ≤ v.priceChangePercent ∧ v.priceChangePercent ≤ 3/10 ∧
       (1/10 : ℚ) ≤ v.currentPrice) := by
  refine ⟨(MemeValuation.mk "a" 10 10 0 10000 10 5), ?_, ?_⟩
  · simp [calculateMemeValue, envOk, store2, memeA, baseMeme, jsOr,
      calculatePriceChange, prevScoreUsed]
    norm_num
  · exact valuation_bounded "a" envOk 5 store2 memeA _
      (by simp [store2]) (by norm_num [memeA, baseMeme])
      (by norm_num [memeA, baseMeme]) (by norm_num [memeA, baseMeme])
      (by simp [calculateMemeValue, envOk, store2, memeA, baseMeme, jsOr,
            calculatePriceChange, prevScoreUsed]; norm_num)

/-- C5 counterexample: for a stored `engagementScore` of `5` — strictly
between 0 and 10 — the divisor actually used by `calculatePriceChange` is
`5`, not at least `10`: `meme.engagementScore || 10` only replaces the falsy
value `0`, it does not floor at 10.  Observably, with a new score of `10`
the change is clamped at `+0.3`, where a divisor floored at 10 would give
`0`. -/
theorem prevScore_not_floored_counterexample :
    prevScoreUsed { baseMeme with engagementScore := 5 } = 5 ∧
    ¬ (10 ≤ prevScoreUsed { baseMeme with engagementScore := 5 }) ∧
    calculatePriceChange { baseMeme with engagementScore := 5 } 10 0 = 3/10 := by
  refine ⟨by norm_num [prevScoreUsed, jsOr], by norm_num [prevScoreUsed, jsOr], ?_⟩
  norm_num [calculatePriceChange, prevScoreUsed, jsOr, baseMeme]

/-- C5 amended: the divisor actually used by `calculatePriceChange` is the
stored `engagementScore` itself whenever that value is non-zero, and `10`
exactly when it is zero; consequently the divisor is never zero (no division
by zero), and it is at least 10 only under the additional assumption that
the stored score is at least 10 (which the engine maintains) — stored values
strictly between 0 and 10, or negative, are used unfloored. -/
theorem prevScoreUsed_characterisation (meme : MemeData)
    (hnz : meme.engagementScore ≠ 0) :
    prevScoreUsed meme ≠ 0 ∧
    prevScoreUsed meme = meme.engagementScore ∧
    prevScoreUsed { meme with engagementScore := 0 } = 10 ∧
    (10 ≤ meme.engagementScore → 10 ≤ prevScoreUsed meme) := by
  refine ⟨?_, ?_, ?_, ?_⟩
  · simp only [prevScoreUsed, jsOr]
    split
    · norm_num
    · assumption
  · simp [prevScoreUsed, jsOr, hnz]
  · simp [prevScoreUsed, jsOr]
  · intro h10
    simpa [prevScoreUsed, jsOr, hnz] using h10

/-- Witness for the amended C5 at a concrete asset with stored score 10. -/
theorem prevScoreUsed_characterisation_witness :
    prevScoreUsed baseMeme ≠ 0 ∧
    prevScoreUsed baseMeme = baseMeme.engagementScore ∧
    prevScoreUsed { baseMeme with engagementScore := 0 } = 10 ∧
    (10 ≤ baseMeme.engagementScore → 10 ≤ prevScoreUsed baseMeme) :=
  prevScoreUsed_characterisation baseMeme (by norm_num [baseMeme])

/-- C2 (the engine side of the claim): `createMeme` performs no validation of
`initialSharePrice`: called with the non-positive price `0` it does not fail
with `InvalidArgument` — it stores and returns a created asset whose share
price is `0`. -/
theorem createMeme_accepts_zero_price :
    ((createMeme zeroPriceInput { id := "u1", username := "alice" } 0 0
        emptyStore).1).currentSharePrice = 0 ∧
    ((createMeme zeroPriceInput { id := "u1", username := "alice" } 0 0
        emptyStore).2.1).memes
      ((createMeme zeroPriceInput { id := "u1", username := "alice" } 0 0
        emptyStore).1).id =
      some ((createMeme zeroPriceInput { id := "u1", username := "alice" } 0 0
        emptyStore).1) := by
  constructor
  · simp [createMeme, zeroPriceInput]
  · simp [createMeme, Store.setMeme, zeroPriceInput, emptyStore]

/-- C6: every `createMeme` call returns an asset with `totalShares = 1000`,
`tradeVolume = 0`, `engagementScore = 10`, one price-history sample at the
initial share price, and `availableShares = totalShares - founderShares`
with `founderShares = 0.1 * totalShares = 100`; the creator's portfolio
entry for the new asset holds `shares = 100` at `averageBuyPrice = 0`. -/
theorem createMeme_issuance (input : CreateInput) (user : UserInfo) (now : ℚ)
    (rand : ℕ) (store : Store) :
    ((createMeme input user now rand store).1).totalShares = 1000 ∧
    ((createMeme input user now rand store).1).tradeVolume = 0 ∧
    ((createMeme input user now rand store).1).engagementScore = 10 ∧
    ((createMeme input user now rand store).1).priceHistory =
      [{ timestamp := now, price := input.initialSharePrice }] ∧
    ((createMeme input user now rand store).1).availableShares =
      ((createMeme input user now rand store).1).totalShares - 100 ∧
    (100 : ℚ) = (1/10) * ((createMeme input user now rand store).1).totalShares ∧
    ((createMeme input user now rand store).2.1).portfolios user.id
      ((createMeme input user now rand store).1).id =
      some { shares := 100, averageBuyPrice := 0 } := by
  refine ⟨rfl, rfl, rfl, rfl, by norm_num [createMeme], by norm_num [createMeme], ?_⟩
  simp [createMeme]

/-- One `updateMemeValuation` run either leaves the stored record for its
asset id unchanged (any failure path) or commits the valuation: new price,
new engagement score, new timestamp, and the pushed-and-trimmed history. -/
lemma update_memes_lookup (memeId : String) (env : TickEnv) (now : ℚ) (store : Store) :
    (updateMemeValuation memeId env now store).1.memes memeId = store.memes memeId ∨
    ∃ meme v, store.memes memeId = some meme ∧
      (calculateMemeValue memeId env now store).1 = .ok v ∧
      (updateMemeValuation memeId env now store).1.memes memeId =
        some { meme with
               currentSharePrice := v.currentPrice
               engagementScore := v.engagementScore
               lastUpdated := v.timestamp
               priceHistory := pushAndTrim meme.priceHistory
                 { timestamp := v.timestamp, price := v.currentPrice } } := by
  rcases h : calculateMemeValue memeId env now store with ⟨res, s⟩
  have hs : s = store := by
    have h2 := calcValue_store_eq memeId env now store
    rw [h] at h2
    exact h2
  subst hs
  rcases res with e | v
  · left
    simp only [updateMemeValuation, h]
  · cases hload : env.loadFails
    · cases hmm : s.memes memeId with
      | none =>
        left
        simp only [updateMemeValuation, h, hload, hmm, Bool.false_eq_true, if_false]
      | some meme =>
        cases hcommit : env.commitFails
        · right
          refine ⟨meme, v, rfl, rfl, ?_⟩
          cases hsink : env.sinkFails <;>
            simp [updateMemeValuation, h, hload, hmm, hcommit, hsink, Store.setMeme]
        · left
          simp only [updateMemeValuation, h, hload, hmm, hcommit,
            Bool.false_eq_true, if_false, if_true]
    · left
      simp only [updateMemeValuation, h, hload, if_true]

/-- A single recompute run preserves the 24-sample cap on the stored
history. -/
lemma update_preserves_cap (memeId : String) (env : TickEnv) (now : ℚ) (store : Store)
    (h : ∀ m, store.memes memeId = some m → m.priceHistory.length ≤ 24) :
    ∀ m, (updateMemeValuation memeId env now store).1.memes memeId = some m →
      m.priceHistory.length ≤ 24 := by
  intro m hm
  rcases update_memes_lookup memeId env now store with heq | ⟨meme, v, _, _, heq⟩
  · exact h m (heq ▸ hm)
  · rw [heq] at hm
    rw [← Option.some.inj hm]
    exact pushAndTrim_length_le _ _

/-- Any chain of recompute runs preserves the 24-sample cap. -/
lemma applyTicks_cap (memeId : String) (ticks : List (TickEnv × ℚ)) :
    ∀ store : Store,
      (∀ m, store.memes memeId = some m → m.priceHistory.length ≤ 24) →
      ∀ m, (applyTicks memeId ticks store).memes memeId = some m →
        m.priceHistory.length ≤ 24 := by
  induction ticks with
  | nil => exact fun store h m hm => h m hm
  | cons t ts ih =>
    intro store h m hm
    exact ih _ (update_preserves_cap memeId t.1 t.2 store h) m hm

/-- The commit step drops exactly the oldest entries beyond the cap and
keeps the fresh sample as the last entry. -/
lemma pushAndTrim_fifo (h : List PricePoint) (p : PricePoint) :
    pushAndTrim h p = (h ++ [p]).drop (h.length + 1 - 24) ∧
    (pushAndTrim h p).getLast? = some p := by
  have hdef : pushAndTrim h p =
      if 24 < (h ++ [p]).length then List.drop ((h ++ [p]).length - 24) (h ++ [p])
      else h ++ [p] := rfl
  constructor
  · rw [hdef]
    by_cases hs : 24 < (h ++ [p]).length
    · rw [if_pos hs]
      have hlen : (h ++ [p]).length - 24 = h.length + 1 - 24 := by simp
      rw [hlen]
    · rw [if_neg hs]
      simp only [List.length_append, List.length_cons, List.length_nil] at hs
      have h0 : h.length + 1 - 24 = 0 := by omega
      rw [h0, List.drop_zero]
  · rw [hdef]
    split <;> rename_i hs
    · rw [List.drop_append_eq_append_drop]
      have h0 : (h ++ [p]).length - 24 - h.length = 0 := by
        simp only [List.length_append, List.length_cons, List.length_nil]
        omega
      rw [h0, List.drop_zero]
      exact List.getLast?_concat _
    · exact List.getLast?_concat _

/-- C3: starting from a stored asset whose history respects the 24-sample
cap (as every freshly created asset does), the record found after any chain
of recompute commits still has at most 24 samples; and the commit step
appends the new `(timestamp, price)` sample, evicts exactly the oldest
entries on overflow (the result is the suffix of the appended list), and
always keeps the new sample as the last entry. -/
theorem priceHistory_capped_fifo (memeId : String) (store : Store)
    (meme m2 : MemeData) (ticks : List (TickEnv × ℚ)) (p : PricePoint)
    (hm : store.memes memeId = some meme)
    (hlen : meme.priceHistory.length ≤ 24)
    (hm2 : (applyTicks memeId ticks store).memes memeId = some m2) :
    m2.priceHistory.length ≤ 24 ∧
    pushAndTrim meme.priceHistory p =
      (meme.priceHistory ++ [p]).drop (meme.priceHistory.length + 1 - 24) ∧
    (pushAndTrim meme.priceHistory p).getLast? = some p := by
  refine ⟨?_, (pushAndTrim_fifo _ _).1, (pushAndTrim_fifo _ _).2⟩
  refine applyTicks_cap memeId ticks store ?_ m2 hm2
  intro m hmm
  rw [hm] at hmm
  rw [← Option.some.inj hmm]
  exact hlen

/-- Witness for C3 at a concrete store, the empty chain and a fresh
sample. -/
theorem priceHistory_capped_fifo_witness :
    memeA.priceHistory.length ≤ 24 ∧
    pushAndTrim memeA.priceHistory (⟨1, 2⟩ : PricePoint) =
      (memeA.priceHistory ++ [(⟨1, 2⟩ : PricePoint)]).drop
        (memeA.priceHistory.length + 1 - 24) ∧
    (pushAndTrim memeA.priceHistory (⟨1, 2⟩ : PricePoint)).getLast? =
      some (⟨1, 2⟩ : PricePoint) :=
  priceHistory_capped_fifo "a" store2 memeA memeA [] (⟨1, 2⟩ : PricePoint)
    (by simp [store2]) (by simp [memeA, baseMeme]) (by simp [applyTicks, store2])

/-- A successful valuation keeps the engagement score at or above 10
whenever the stored score was: the carried-over score is the stored value
itself, and a freshly computed one passes through `Math.max(10, ...)`. -/
lemma calcValue_score_ge (memeId : String) (env : TickEnv) (now : ℚ)
    (store : Store) (meme : MemeData) (v : MemeValuation)
    (hm : store.memes memeId = some meme) (h10 : 10 ≤ meme.engagementScore)
    (hv : (calculateMemeValue memeId env now store).1 = .ok v) :
    10 ≤ v.engagementScore := by
  have hnz : meme.engagementScore ≠ 0 := by intro h0; rw [h0] at h10; norm_num at h10
  cases h1 : env.calcLoadFails
  · simp only [calculateMemeValue, h1, hm, Bool.false_eq_true, if_false] at hv
    have hv2 : _ = v := Except.ok.inj hv
    subst hv2
    cases hp : meme.postId
    · simpa [jsOr, hnz] using h10
    · cases hf : env.fetchResult with
      | none => simpa [hp, hf, jsOr, hnz] using h10
      | some pr =>
        rcases pr with ⟨k, c⟩
        simp [hp, hf]
  · simp [calculateMemeValue, h1] at hv

/-- C9: `createMeme` initialises `engagementScore` to 10, and whenever the
stored score is at least 10, any record stored for that asset after an
`updateMemeValuation` run — whether it committed a freshly computed or a
carried-over score, or failed and left the record alone — still has score at
least 10. -/
theorem engagementScore_floor (input : CreateInput) (user : UserInfo) (nowC : ℚ)
    (rand : ℕ) (storeC : Store) (memeId : String) (env : TickEnv) (now : ℚ)
    (store : Store) (meme m2 : MemeData)
    (hm : store.memes memeId = some meme) (h10 : 10 ≤ meme.engagementScore)
    (hm2 : (updateMemeValuation memeId env now store).1.memes memeId = some m2) :
    ((createMeme input user nowC rand storeC).1).engagementScore = 10 ∧
    10 ≤ m2.engagementScore := by
  refine ⟨rfl, ?_⟩
  rcases update_memes_lookup memeId env now store with heq | ⟨meme2, v, hmm, hcv, heq⟩
  · rw [heq, hm] at hm2
    rw [← Option.some.inj hm2]
    exact h10
  · rw [heq] at hm2
    rw [← Option.some.inj hm2]
    exact calcValue_score_ge memeId env now store meme v hm h10 hcv

/-- Witness for C9 at a concrete creation and a concrete (failing, hence
record-preserving) recompute run. -/
theorem engagementScore_floor_witness :
    ((createMeme zeroPriceInput { id := "u1", username := "alice" } 0 0
        emptyStore).1).engagementScore = 10 ∧
    (10 : ℚ) ≤ memeA.engagementScore :=
  engagementScore_floor zeroPriceInput { id := "u1", username := "alice" } 0 0
    emptyStore "a" envCalcFail 0 store2 memeA memeA
    (by simp [store2]) (by norm_num [memeA, baseMeme])
    (by simp [updateMemeValuation, calculateMemeValue, envCalcFail, envOk, store2])

/-- `slice(0, 0)` is empty. -/
lemma jsSliceTo_zero {α : Type} (l : List α) : jsSliceTo l 0 = [] := by
  have hdef : jsSliceTo l 0 =
      l.take ((if (0:ℤ) < 0 then max ((l.length : ℤ) + 0) 0
               else min 0 (l.length : ℤ)).toNat) := rfl
  rw [hdef, if_neg (by norm_num), min_eq_left (by positivity)]
  simp

/-- `slice(0, e)` with `0 ≤ e` returns at most `e` elements. -/
lemma jsSliceTo_length_le {α : Type} (l : List α) (e : ℤ) (he : 0 ≤ e) :
    ((jsSliceTo l e).length : ℤ) ≤ e := by
  have hdef : jsSliceTo l e =
      l.take ((if e < 0 then max ((l.length : ℤ) + e) 0
               else min e (l.length : ℤ)).toNat) := rfl
  rw [hdef, if_neg (by omega)]
  have hb : (min e (l.length : ℤ)).toNat ≤ e.toNat := by
    rcases le_total e (l.length : ℤ) with h | h
    · rw [min_eq_left h]
    · rw [min_eq_right h]; omega
  calc ((l.take (min e (l.length : ℤ)).toNat).length : ℤ)
      ≤ ((min e (l.length : ℤ)).toNat : ℤ) := by
        exact_mod_cast List.length_take_le _ _
    _ ≤ (e.toNat : ℤ) := by exact_mod_cast hb
    _ = e := Int.toNat_of_nonneg he

/-- `slice(0, e)` with `e < 0` drops the last `-e` elements (it is NOT
empty when the list is longer than `-e`). -/
lemma jsSliceTo_neg {α : Type} (l : List α) (e : ℤ) (he : e < 0) :
    jsSliceTo l e = l.take (l.length - (-e).toNat) := by
  have hdef : jsSliceTo l e =
      l.take ((if e < 0 then max ((l.length : ℤ) + e) 0
               else min e (l.length : ℤ)).toNat) := rfl
  rw [hdef, if_pos he]
  congr 1
  rcases le_total ((l.length : ℤ) + e) 0 with h | h
  · rw [max_eq_right h]; omega
  · rw [max_eq_left h]; omega

/-- C7 counterexample: the claim "every limit ≤ 0 yields an empty list"
fails for negative limits: on a store holding two assets,
`getTrendingMemes` with `limit = -1` returns one asset (JavaScript's
`slice(0, -1)` drops only the last element), not the empty list. -/
theorem trending_negative_limit_counterexample :
    (-1 : ℤ) ≤ 0 ∧ getTrendingMemes (-1) none store2 = [memeB] ∧
    getTrendingMemes (-1) none store2 ≠ [] := by
  refine ⟨by norm_num, ?_, ?_⟩ <;>
    norm_num [getTrendingMemes, sortedTrending, loadedMemes, memeIdsToFetch, store2,
      jsSliceTo, List.insertionSort, List.orderedInsert, getChangePercent,
      memeA, memeB, baseMeme]

/-- C7 amended: `getTrendingMemes` never raises an error (it is a total
function); `limit = 0` yields the empty list; a non-negative `limit` yields
at most `limit` entries; but a negative `limit` yields the sorted list with
only its last `-limit` entries dropped — in particular a non-empty result
whenever more than `-limit` assets are loaded. -/
theorem trending_limit_amended (store : Store) (category : Option String) (limit : ℤ) :
    getTrendingMemes 0 category store = [] ∧
    (0 ≤ limit → ((getTrendingMemes limit category store).length : ℤ) ≤ limit) ∧
    (limit < 0 → getTrendingMemes limit category store =
      (sortedTrending category store).take
        ((sortedTrending category store).length - (-limit).toNat)) :=
  ⟨jsSliceTo_zero _,
   fun he => jsSliceTo_length_le _ _ he,
   fun he => jsSliceTo_neg _ _ he⟩

/-- Witness for the amended C7 at a concrete two-asset store and
`limit = -1`. -/
theorem trending_limit_amended_witness :
    getTrendingMemes 0 none store2 = [] ∧
    getTrendingMemes (-1) none store2 =
      (sortedTrending none store2).take ((sortedTrending none store2).length - 1) :=
  ⟨(trending_limit_amended store2 none (-1)).1,
   by
    have h := (trending_limit_amended store2 none (-1)).2.2 (by norm_num)
    simpa using h⟩

/-- C8: the full (pre-limit) trending result is the loaded asset list — ids
resolved from the index with records missing from the store silently
skipped — permuted into descending order of `getChangePercent`, the percent
change between the last two history samples; an asset with fewer than two
samples has change 0 and is therefore included neutrally, never excluded. -/
theorem trending_sorted_perm (store : Store) (category : Option String)
    (m : MemeData) (hm : m.priceHistory.length < 2) :
    List.Sorted (fun a b => getChangePercent b ≤ getChangePercent a)
      (sortedTrending category store) ∧
    (sortedTrending category store).Perm (loadedMemes category store) ∧
    getChangePercent m = 0 := by
  refine ⟨?_, List.perm_insertionSort _ _, by simp [getChangePercent, hm]⟩
  haveI h1 : IsTotal MemeData (fun a b => getChangePercent b ≤ getChangePercent a) :=
    ⟨fun a b => le_total _ _⟩
  haveI h2 : IsTrans MemeData (fun a b => getChangePercent b ≤ getChangePercent a) :=
    ⟨fun a b c hab hbc => le_trans hbc hab⟩
  exact List.sorted_insertionSort _ _

/-- Witness for C8 at the concrete two-asset store, with the single-sample
asset `memeA` ranking as 0% change. -/
theorem trending_sorted_perm_witness :
    List.Sorted (fun a b => getChangePercent b ≤ getChangePercent a)
      (sortedTrending none store2) ∧
    (sortedTrending none store2).Perm (loadedMemes none store2) ∧
    getChangePercent memeA = 0 :=
  trending_sorted_perm store2 none memeA (by simp [memeA, baseMeme])
